import Mathlib

/-!
Verification development for the `search_server.py` MCP web-search server.

The cache (`SimpleCache`) and the site crawler (`_crawl_website_impl`) are
embedded shallowly: Python dicts become functions into `Option`, wall-clock
timestamps (`time.time()` floats) become rationals, and every external
collaborator (the HTTP client, `lxml` parsing, `urllib.parse`, `hashlib`,
the search backend) is a parameter of the embedded function, so that the
repository's own control flow and string manipulation are modelled exactly.
-/

namespace SearchServer

/-- JSON-like primitive value: the argument repertoire actually passed to
`SimpleCache._make_key` by the three call sites in the source (strings and
ints), plus booleans and null for completeness. -/
inductive JPrim where
  | null
  | bool (b : Bool)
  | num (n : Int)
  | str (s : String)
deriving DecidableEq

/-- JSON value, used to model the Python dict passed to `json.dumps` at each
response-building site. -/
inductive JValue where
  | null
  | bool (b : Bool)
  | num (n : Int)
  | str (s : String)
  | arr (items : List JValue)
  | obj (fields : List (String × JValue))

/-- Field lookup inside a JSON object (`None` on a non-object). -/
def JValue.lookupField (v : JValue) (k : String) : Option JValue :=
  match v with
  | .obj fs => fs.lookup k
  | _ => none

/-- Lookup of a string-valued field inside a JSON object. -/
def JValue.lookupStr (v : JValue) (k : String) : Option String :=
  match v.lookupField k with
  | some (.str s) => some s
  | _ => none

/-- Lookup of a number-valued field inside a JSON object. -/
def JValue.lookupNum (v : JValue) (k : String) : Option Int :=
  match v.lookupField k with
  | some (.num n) => some n
  | _ => none

/-- Lookup of an array-valued field inside a JSON object. -/
def JValue.lookupArr (v : JValue) (k : String) : Option (List JValue) :=
  match v.lookupField k with
  | some (.arr xs) => some xs
  | _ => none

/-- A response produced by one `json.dumps(obj, ...)` call: the object being
serialized together with the `indent` argument of that call (`some 2` for
`indent=2`, `none` when the argument is omitted). -/
structure Resp where
  val : JValue
  indent : Option Nat

/-!  ## SimpleCache (src/search_server.py lines 22-54)

`self._cache` and `self._timestamps` are two dicts over the same keys;
`default_ttl` is fixed at construction.  `time.time()` values are modelled
as rationals supplied explicitly as a `now` argument. -/

structure SimpleCache (V : Type) where
  _cache : String → Option V
  _timestamps : String → Option ℚ
  default_ttl : ℚ

/-- `SimpleCache.__init__` (line 25): empty dicts, given default TTL. -/
def SimpleCache.init (V : Type) (default_ttl : ℚ) : SimpleCache V :=
  ⟨fun _ => none, fun _ => none, default_ttl⟩

/-- Removal of a key from both dicts, as in the expired branch of `get`
(lines 42-43: `del self._cache[key]; del self._timestamps[key]`). -/
def SimpleCache.deleteKey (c : SimpleCache V) (key : String) : SimpleCache V :=
  { c with
    _cache := fun k => if k = key then none else c._cache k,
    _timestamps := fun k => if k = key then none else c._timestamps k }

/-- `SimpleCache.get` (lines 35-44).  Returns the value (or `none` on a miss)
together with the possibly-updated cache state; the `.error` case models the
`KeyError` Python would raise if `key` were in `self._cache` but not in
`self._timestamps` (unreachable from states built by `set`/`clear`). -/
def SimpleCache.get (c : SimpleCache V) (key : String) (now : ℚ) :
    Except String (Option V × SimpleCache V) :=
  match c._cache key with
  | some v =>
    match c._timestamps key with
    | some t =>
      if now - t < c.default_ttl then .ok (some v, c)
      else .ok (none, c.deleteKey key)
    | none => .error "KeyError"
  | none => .ok (none, c)

/-- `SimpleCache.set` (lines 46-49): stores value and current timestamp,
unconditionally overwriting.  The `ttl` parameter is accepted but never read
by the body, exactly as in the source. -/
def SimpleCache.set (c : SimpleCache V) (key : String) (value : V)
    (ttl : Option ℚ) (now : ℚ) : SimpleCache V :=
  { c with
    _cache := fun k => if k = key then some value else c._cache k,
    _timestamps := fun k => if k = key then some now else c._timestamps k }

/-- `SimpleCache.clear` (lines 51-54): drops all entries from both dicts. -/
def SimpleCache.clear (c : SimpleCache V) : SimpleCache V :=
  { c with _cache := fun _ => none, _timestamps := fun _ => none }

/-!  ## SimpleCache._make_key (lines 30-33)

`key_str = json.dumps([args, kwargs], sort_keys=True, default=str)` followed
by `hashlib.md5(key_str.encode()).hexdigest()`.  The md5 hash and the json
string-escaping routine are external library functions and are taken as
parameters; the bracketed layout, the `", "`/`": "` separators and the
`sort_keys=True` ordering of the kwargs dict are modelled exactly. -/

/-- Serialization of one primitive argument as `json.dumps` renders it
(string escaping abstracted as `esc`, which yields the quoted literal). -/
def jprimDump (esc : String → String) : JPrim → String
  | .null => "null"
  | .bool true => "true"
  | .bool false => "false"
  | .num n => toString n
  | .str s => esc s

/-- The kwargs dict in ascending key order, as `sort_keys=True` serializes
it.  Python compares the keys as strings. -/
def sortKW (kwargs : List (String × JPrim)) : List (String × JPrim) :=
  List.insertionSort (fun a b => a.1 ≤ b.1) kwargs

/-- The exact string hashed by `_make_key` (line 32):
`json.dumps([args, kwargs], sort_keys=True)` with default separators. -/
def makeKeyStr (esc : String → String) (args : List JPrim)
    (kwargs : List (String × JPrim)) : String :=
  "[[" ++ String.intercalate ", " (args.map (jprimDump esc)) ++ "], \x7b"
    ++ String.intercalate ", "
        ((sortKW kwargs).map (fun kv => esc kv.1 ++ ": " ++ jprimDump esc kv.2))
    ++ "\x7d]"

/-- `SimpleCache._make_key` (lines 30-33): md5 hex digest (abstracted as
`md5hex`) of the sorted-keys json serialization of `[args, kwargs]`. -/
def SimpleCache._make_key (md5hex : String → String) (esc : String → String)
    (args : List JPrim) (kwargs : List (String × JPrim)) : String :=
  md5hex (makeKeyStr esc args kwargs)

/-!  ## Cache lemmas and claim theorems -/

/-- Two kwargs dicts with the same (duplicate-free) bindings serialize in the
same sorted order. -/
theorem sortKW_eq_of_perm (kw1 kw2 : List (String × JPrim)) (hp : List.Perm kw1 kw2)
    (hnd : (kw1.map Prod.fst).Nodup) : sortKW kw1 = sortKW kw2 := by
  haveI : IsAntisymm (String × JPrim) (fun a b => a.1 < b.1) :=
    ⟨fun a b hab hba => absurd hba (lt_asymm hab)⟩
  haveI : IsTotal (String × JPrim) (fun a b => a.1 ≤ b.1) := ⟨fun a b => le_total a.1 b.1⟩
  haveI : IsTrans (String × JPrim) (fun a b => a.1 ≤ b.1) := ⟨fun _ _ _ h1 h2 => le_trans h1 h2⟩
  have hnd2 : (kw2.map Prod.fst).Nodup := ((hp.map Prod.fst).nodup_iff).mp hnd
  have key_sorted : ∀ kw : List (String × JPrim), (kw.map Prod.fst).Nodup →
      List.Sorted (fun a b : String × JPrim => a.1 < b.1) (sortKW kw) := by
    intro kw hkw
    unfold sortKW
    have h1 : List.Sorted (fun a b : String × JPrim => a.1 ≤ b.1)
        (List.insertionSort (fun a b => a.1 ≤ b.1) kw) :=
      List.sorted_insertionSort _ kw
    have hperm := List.perm_insertionSort (fun a b : String × JPrim => a.1 ≤ b.1) kw
    have hnds : ((List.insertionSort (fun a b : String × JPrim => a.1 ≤ b.1) kw).map
        Prod.fst).Nodup := ((hperm.map Prod.fst).nodup_iff).mpr hkw
    have h2 := List.pairwise_map.mp hnds
    exact (h1.and h2).imp (fun h => lt_of_le_of_ne h.1 h.2)
  have hp' : List.Perm (sortKW kw1) (sortKW kw2) := by
    unfold sortKW
    exact (List.perm_insertionSort _ kw1).trans (hp.trans (List.perm_insertionSort _ kw2).symm)
  exact List.eq_of_perm_of_sorted hp' (key_sorted kw1 hnd) (key_sorted kw2 hnd2)

/-- Claim C1: `set(k, v, t)` with a custom ttl produces exactly the same
cache state as `set(k, v)` with the default ttl (the body of `set` never
reads `ttl`, lines 46-49), so every subsequent `get` at every key and time
behaves identically and expiry is always judged against `default_ttl`. -/
theorem c1_set_custom_ttl_no_effect (V : Type) (c : SimpleCache V) (k : String)
    (v : V) (t : ℚ) (now : ℚ) :
    c.set k v (some t) now = c.set k v none now ∧
    ∀ (k' : String) (now' : ℚ),
      (c.set k v (some t) now).get k' now' = (c.set k v none now).get k' now' :=
  ⟨rfl, fun _ _ => rfl⟩

/-- Claim C4: an entry inserted at `t0` is a hit iff `now - t0 < default_ttl`
(strict, line 38); once `now - t0 ≥ default_ttl`, `get` returns a miss and
deletes the entry from both dicts (lines 41-44). -/
theorem c4_get_expiry (V : Type) (c : SimpleCache V) (k : String) (v : V)
    (t0 now : ℚ) (hc : c._cache k = some v) (ht : c._timestamps k = some t0) :
    (c.default_ttl ≤ now - t0 →
      c.get k now = .ok (none, c.deleteKey k) ∧
      (c.deleteKey k)._cache k = none ∧ (c.deleteKey k)._timestamps k = none) ∧
    (c.get k now = .ok (some v, c) ↔ now - t0 < c.default_ttl) := by
  constructor
  · intro hge
    have hlt : ¬ (now - t0 < c.default_ttl) := not_lt.mpr hge
    exact ⟨by simp [SimpleCache.get, hc, ht, hlt], by simp [SimpleCache.deleteKey],
      by simp [SimpleCache.deleteKey]⟩
  · constructor
    · intro hok
      by_contra hlt
      simp [SimpleCache.get, hc, ht, hlt] at hok
    · intro hlt
      simp [SimpleCache.get, hc, ht, hlt]

/-- Concrete cache for the C4 witness: one entry under "k" inserted at 0 with
the default TTL of 300. -/
def c4cache : SimpleCache String := (SimpleCache.init String 300).set "k" "val" none 0

/-- Witness for C4 at `now = 300`, exactly the TTL after insertion. -/
theorem c4_get_expiry_witness :
    (c4cache.get "k" 300 = .ok (none, c4cache.deleteKey "k") ∧
      (c4cache.deleteKey "k")._cache "k" = none ∧
      (c4cache.deleteKey "k")._timestamps "k" = none) ∧
    (c4cache.get "k" 300 = .ok (some "val", c4cache) ↔
      (300 : ℚ) - 0 < c4cache.default_ttl) := by
  have h := c4_get_expiry String c4cache "k" "val" 0 300 rfl rfl
  exact ⟨h.1 (by norm_num [c4cache, SimpleCache.set, SimpleCache.init]), h.2⟩

/-- Claim C5: `set(k, v)` followed by `get(k)` strictly within the TTL
returns exactly `v` (and leaves the state unchanged), and `set`
unconditionally overwrites whatever was stored under `k` before. -/
theorem c5_set_then_get (V : Type) (c : SimpleCache V) (k : String) (v : V)
    (ttl : Option ℚ) (t0 now : ℚ) (h : now - t0 < c.default_ttl) :
    (c.set k v ttl t0).get k now = .ok (some v, c.set k v ttl t0) ∧
    (c.set k v ttl t0)._cache k = some v ∧
    (c.set k v ttl t0)._timestamps k = some t0 :=
  ⟨by simp [SimpleCache.get, SimpleCache.set, h], by simp [SimpleCache.set],
    by simp [SimpleCache.set]⟩

/-- Witness for C5: insert at time 0 into a cache that already holds another
value under the same key, read back at time 1 (TTL 300). -/
theorem c5_set_then_get_witness :
    (((SimpleCache.init String 300).set "k" "old" none (-5)).set "k" "v" (some 7) 0).get "k" 1 =
      .ok (some "v", ((SimpleCache.init String 300).set "k" "old" none (-5)).set "k" "v" (some 7) 0) ∧
    (((SimpleCache.init String 300).set "k" "old" none (-5)).set "k" "v" (some 7) 0)._cache "k" = some "v" ∧
    (((SimpleCache.init String 300).set "k" "old" none (-5)).set "k" "v" (some 7) 0)._timestamps "k" = some 0 :=
  c5_set_then_get String ((SimpleCache.init String 300).set "k" "old" none (-5))
    "k" "v" (some 7) 0 1 (by norm_num [SimpleCache.set, SimpleCache.init])

/-- Claim C6: `_make_key` is order-independent over keyword arguments — any
two invocations supplying the same duplicate-free name-to-value bindings, in
any order, hash the identical serialized string — while permuting distinct
positional arguments changes the serialized string, hence the key whenever
the hash separates the two strings. -/
theorem c6_make_key_kwarg_order (md5hex esc : String → String) :
    (∀ (args : List JPrim) (kw1 kw2 : List (String × JPrim)),
      List.Perm kw1 kw2 → (kw1.map Prod.fst).Nodup →
      SimpleCache._make_key md5hex esc args kw1 =
        SimpleCache._make_key md5hex esc args kw2) ∧
    (Function.Injective md5hex →
      SimpleCache._make_key md5hex esc [.num 1, .num 2] [] ≠
        SimpleCache._make_key md5hex esc [.num 2, .num 1] []) := by
  constructor
  · intro args kw1 kw2 hp hnd
    unfold SimpleCache._make_key makeKeyStr
    rw [sortKW_eq_of_perm kw1 kw2 hp hnd]
  · intro hinj hne
    have h : makeKeyStr esc [.num 1, .num 2] [] = makeKeyStr esc [.num 2, .num 1] [] :=
      hinj hne
    rw [show makeKeyStr esc [.num 1, .num 2] [] = "[[1, 2], \x7b\x7d]" from rfl,
        show makeKeyStr esc [.num 2, .num 1] [] = "[[2, 1], \x7b\x7d]" from rfl] at h
    exact absurd h (by decide)

/-- Witness for C6: `make_key(a=1, b=2) = make_key(b=2, a=1)` and the swapped
positional pair `(1, 2)` / `(2, 1)` yields different keys (under the identity
hash, which is injective). -/
theorem c6_make_key_kwarg_order_witness :
    SimpleCache._make_key id id [] [("a", .num 1), ("b", .num 2)] =
      SimpleCache._make_key id id [] [("b", .num 2), ("a", .num 1)] ∧
    SimpleCache._make_key id id [.num 1, .num 2] [] ≠
      SimpleCache._make_key id id [.num 2, .num 1] [] :=
  ⟨(c6_make_key_kwarg_order id id).1 [] _ _ (by decide) (by decide),
    (c6_make_key_kwarg_order id id).2 (fun _ _ h => h)⟩

/-!  ## Models of the Python `str` builtins used by the embedded code

Lean's byte-position-based `String` primitives do not reduce inside the
kernel, so the Python string methods (`startswith`, `lower`, `strip`,
`endswith`) are modelled by their character-list semantics. -/

/-- Python `s.startswith(pre)`. -/
def pyStartsWith (s pre : String) : Bool := pre.data.isPrefixOf s.data

/-- Python `s.lower()` (the URLs and patterns involved are ASCII). -/
def pyLower (s : String) : String := ⟨s.data.map Char.toLower⟩

/-- Python `s.strip()`. -/
def pyStrip (s : String) : String :=
  ⟨(((s.data.dropWhile Char.isWhitespace).reverse).dropWhile Char.isWhitespace).reverse⟩

/-- Python `s.endswith(suffix)`. -/
def pyEndsWith (s sfx : String) : Bool := sfx.data.isSuffixOf s.data

/-- Python slicing `s[:n]`. -/
def pySlice (s : String) (n : Nat) : String := ⟨s.data.take n⟩

/-!  ## Site crawler (`_crawl_website_impl`, src/search_server.py lines 1155-1239)

External collaborators are parameters: `urljoin`/`netloc` stand for
`urllib.parse.urljoin` and `urlparse(...).netloc`, and `fetch` stands for the
whole `client.get` / `raise_for_status` / `lxml` parse of one URL — `none`
models any exception raised by that block (network error, HTTP status error,
parse failure), `some` carries the parsed artefacts the loop body reads:
the `//title/text()` results, the `//body//text()` results, and the `href`
attributes of the `//a[@href]` anchors. -/

structure FetchedPage where
  title_texts : List String
  body_texts : List String
  hrefs : List String
deriving DecidableEq

/-- One record of the `pages` list (lines 1198-1202). -/
structure CrawlPage where
  url : String
  title : String
  content_preview : String
deriving DecidableEq

/-- The crawl loop's mutable state: `visited`, `to_visit`, `pages`. -/
structure CrawlState where
  visited : List String
  to_visit : List String
  pages : List CrawlPage
deriving DecidableEq

/-- The fixed inputs of one crawl: the external collaborators plus
`base_domain = urlparse(url).netloc`, `same_domain` and `max_pages`. -/
structure CrawlCtx where
  urljoin : String → String → String
  netloc : String → String
  fetch : String → Option FetchedPage
  base_domain : String
  same_domain : Bool
  max_pages : Nat

/-- `skip_patterns` (line 1217). -/
def skipPatterns : List String :=
  [".pdf", ".jpg", ".png", ".gif", ".css", ".js", "#", "mailto:", "tel:"]

/-- Substring test: `sub in hay` for Python strings. -/
def strContainsSub (hay sub : String) : Bool :=
  hay.data.tails.any (fun t => sub.data.isPrefixOf t)

/-- Line 1218: `any(p in full_url.lower() for p in skip_patterns)`. -/
def shouldSkip (full_url : String) : Bool :=
  skipPatterns.any (fun p => strContainsSub (pyLower full_url) p)

/-- Lines 1186-1196: title extraction with the `"No title"` default and the
joined, stripped, 2000-character-truncated text preview. -/
def pageOf (current : String) (pd : FetchedPage) : CrawlPage :=
  { url := current,
    title := match pd.title_texts with | [] => "No title" | t :: _ => pyStrip t,
    content_preview :=
      pySlice (String.intercalate " "
        ((pd.body_texts.map pyStrip).filter (fun s => s != ""))) 2000 }

/-- The body of the link-discovery loop (lines 1205-1222) for one anchor:
resolve `href` against `current`, then the four filters — web scheme
(lines 1210-1211), same-domain (lines 1213-1214), skip patterns
(lines 1216-1219), and not already visited or queued (lines 1221-1222). -/
def linkStep (ctx : CrawlCtx) (visited : List String) (current : String)
    (acc : List String) (href : String) : List String :=
  let full_url := ctx.urljoin current href
  if !(pyStartsWith full_url "http://" || pyStartsWith full_url "https://") then acc
  else if ctx.same_domain && ctx.netloc full_url != ctx.base_domain then acc
  else if shouldSkip full_url then acc
  else if full_url ∈ visited ∨ full_url ∈ acc then acc
  else acc ++ [full_url]

/-- Lines 1205-1222: the link-discovery loop.  Starting from the live
`to_visit` list `tv` (the frontier minus the popped URL), each anchor's
`href` is processed by `linkStep` in page order. -/
def processLinks (ctx : CrawlCtx) (visited : List String) (current : String)
    (hrefs : List String) (tv : List String) : List String :=
  hrefs.foldl (linkStep ctx visited current) tv

theorem bool_of_not_not (b : Bool) (h : ¬ ((!b) = true)) : b = true := by
  cases b
  · exact absurd rfl h
  · rfl

/-- Every URL in the output of `linkStep` was already queued or passed all
four filters. -/
theorem mem_linkStep (ctx : CrawlCtx) (visited : List String) (current : String)
    (acc : List String) (href : String) (u : String)
    (h : u ∈ linkStep ctx visited current acc href) :
    u ∈ acc ∨
      ((pyStartsWith u "http://" || pyStartsWith u "https://") = true ∧
       (ctx.same_domain = true → ctx.netloc u = ctx.base_domain) ∧
       shouldSkip u = false ∧ u ∉ visited) := by
  unfold linkStep at h
  set full_url := ctx.urljoin current href with hfu
  by_cases h1 : (!(pyStartsWith full_url "http://" || pyStartsWith full_url "https://")) = true
  · rw [if_pos h1] at h; exact Or.inl h
  · rw [if_neg h1] at h
    by_cases h2 : (ctx.same_domain && ctx.netloc full_url != ctx.base_domain) = true
    · rw [if_pos h2] at h; exact Or.inl h
    · rw [if_neg h2] at h
      by_cases h3 : shouldSkip full_url = true
      · rw [if_pos h3] at h; exact Or.inl h
      · rw [if_neg h3] at h
        by_cases h4 : full_url ∈ visited ∨ full_url ∈ acc
        · rw [if_pos h4] at h; exact Or.inl h
        · rw [if_neg h4] at h
          rcases List.mem_append.mp h with hin | hu
          · exact Or.inl hin
          · have hu' : u = full_url := List.mem_singleton.mp hu
            subst hu'
            refine Or.inr ⟨bool_of_not_not _ h1, ?_, by simpa using h3,
              fun hv => h4 (Or.inl hv)⟩
            intro hsd
            by_contra hne
            exact h2 (by simp [hsd, bne_iff_ne, hne])

theorem processLinks_nil (ctx : CrawlCtx) (visited : List String) (current : String)
    (tv : List String) : processLinks ctx visited current [] tv = tv := by
  unfold processLinks
  rw [List.foldl_nil]

theorem processLinks_cons (ctx : CrawlCtx) (visited : List String) (current : String)
    (href : String) (rest : List String) (tv : List String) :
    processLinks ctx visited current (href :: rest) tv =
      processLinks ctx visited current rest (linkStep ctx visited current tv href) := by
  unfold processLinks
  rw [List.foldl_cons]

/-- Every URL in the output of `processLinks` was already queued or passed
all four filters. -/
theorem mem_processLinks (ctx : CrawlCtx) (visited : List String) (current : String)
    (hrefs : List String) (tv : List String) (u : String)
    (h : u ∈ processLinks ctx visited current hrefs tv) :
    u ∈ tv ∨
      ((pyStartsWith u "http://" || pyStartsWith u "https://") = true ∧
       (ctx.same_domain = true → ctx.netloc u = ctx.base_domain) ∧
       shouldSkip u = false ∧ u ∉ visited) := by
  induction hrefs generalizing tv with
  | nil =>
    rw [processLinks_nil] at h
    exact Or.inl h
  | cons href rest ih =>
    rw [processLinks_cons] at h
    rcases ih _ h with htv | hgood
    · rcases mem_linkStep ctx visited current tv href u htv with hin | hgood
      · exact Or.inl hin
      · exact Or.inr hgood
    · exact Or.inr hgood

/-- One iteration of the `while` loop (lines 1171-1225): `none` when the
loop guard fails (empty frontier or page budget reached), otherwise the next
state.  A fetch failure (`ctx.fetch current = none`) corresponds to the
`except ... continue` at lines 1224-1225: the URL is marked visited, nothing
is recorded and no links are enqueued. -/
def crawlStep (ctx : CrawlCtx) (s : CrawlState) : Option CrawlState :=
  match s.to_visit with
  | [] => none
  | current :: rest =>
    if s.pages.length < ctx.max_pages then
      if current ∈ s.visited then some { s with to_visit := rest }
      else
        match ctx.fetch current with
        | none => some { visited := current :: s.visited, to_visit := rest, pages := s.pages }
        | some pd =>
          some { visited := current :: s.visited,
                 to_visit := processLinks ctx (current :: s.visited) current pd.hrefs rest,
                 pages := s.pages ++ [pageOf current pd] }
    else none

/-- Each loop iteration either adds a page (bounded by `max_pages`) or
shortens the frontier, so the pair
`(max_pages - |pages|, |to_visit|)` decreases lexicographically. -/
theorem crawlStep_lex (ctx : CrawlCtx) (s s' : CrawlState)
    (h : crawlStep ctx s = some s') :
    Prod.Lex (· < ·) (· < ·)
      (ctx.max_pages - s'.pages.length, s'.to_visit.length)
      (ctx.max_pages - s.pages.length, s.to_visit.length) := by
  unfold crawlStep at h
  cases hs : s.to_visit with
  | nil => rw [hs] at h; exact absurd h (by simp)
  | cons current rest =>
    rw [hs] at h
    dsimp only at h
    by_cases hp : s.pages.length < ctx.max_pages
    · rw [if_pos hp] at h
      by_cases hv : current ∈ s.visited
      · rw [if_pos hv] at h
        cases h
        exact Prod.Lex.right _ (by simp [hs])
      · rw [if_neg hv] at h
        cases hf : ctx.fetch current with
        | none =>
          rw [hf] at h
          dsimp only at h
          cases h
          exact Prod.Lex.right _ (by simp [hs])
        | some pd =>
          rw [hf] at h
          dsimp only at h
          cases h
          exact Prod.Lex.left _ _ (by simp; omega)
    · rw [if_neg hp] at h
      exact absurd h (by simp)

/-- The `while` loop itself: iterate `crawlStep` until the guard fails. -/
def crawlLoop (ctx : CrawlCtx) (s : CrawlState) : CrawlState :=
  match h : crawlStep ctx s with
  | none => s
  | some s' => crawlLoop ctx s'
termination_by (ctx.max_pages - s.pages.length, s.to_visit.length)
decreasing_by exact crawlStep_lex ctx s s' h

/-- The crawl states passed through by the loop when started at `s`. -/
inductive Reaches (ctx : CrawlCtx) : CrawlState → CrawlState → Prop where
  | refl (s : CrawlState) : Reaches ctx s s
  | tail {s t t' : CrawlState} : Reaches ctx s t → crawlStep ctx t = some t' →
      Reaches ctx s t'

theorem reaches_trans {ctx : CrawlCtx} {s t u : CrawlState}
    (h1 : Reaches ctx s t) (h2 : Reaches ctx t u) : Reaches ctx s u := by
  induction h2 with
  | refl => exact h1
  | tail _ hstep ih => exact .tail ih hstep

theorem reaches_crawlLoop (ctx : CrawlCtx) (s : CrawlState) :
    Reaches ctx s (crawlLoop ctx s) := by
  induction s using crawlLoop.induct ctx with
  | case1 s h => rw [crawlLoop, h]; exact .refl s
  | case2 s s' h ih =>
    rw [crawlLoop, h]
    exact reaches_trans (.tail (.refl s) h) ih

/-- A property preserved by `crawlStep` holds at every state the loop
reaches. -/
theorem inv_of_reaches {ctx : CrawlCtx} {P : CrawlState → Prop}
    (hstep : ∀ t t', crawlStep ctx t = some t' → P t → P t')
    {s u : CrawlState} (hr : Reaches ctx s u) (hs : P s) : P u := by
  induction hr with
  | refl => exact hs
  | tail _ hst ih => exact hstep _ _ hst ih

/-- At the loop's result the guard has failed. -/
theorem crawlStep_crawlLoop (ctx : CrawlCtx) (s : CrawlState) :
    crawlStep ctx (crawlLoop ctx s) = none := by
  induction s using crawlLoop.induct ctx with
  | case1 s h => rw [crawlLoop, h]; exact h
  | case2 s s' h ih => rw [crawlLoop, h]; exact ih

/-- Lines 1158-1159: prefix `https://` onto a URL without a web scheme. -/
def normalizeUrl (url : String) : String :=
  if !(pyStartsWith url "http://" || pyStartsWith url "https://") then "https://" ++ url
  else url

/-- Lines 1166-1168: `visited = set(); to_visit = [url]; pages = []`. -/
def crawlInit (url' : String) : CrawlState := ⟨[], [url'], []⟩

/-- The context `_crawl_website_impl` runs the loop in (lines 1165-1170). -/
def mkCrawlCtx (urljoin : String → String → String) (netloc : String → String)
    (fetch : String → Option FetchedPage)
    (url' : String) (max_pages : Nat) (same_domain : Bool) : CrawlCtx :=
  { urljoin := urljoin, netloc := netloc, fetch := fetch,
    base_domain := netloc url', same_domain := same_domain, max_pages := max_pages }

/-- Complete case analysis of one successful loop iteration: the popped URL
was either already visited (skip), or its fetch failed (swallowed), or its
fetch succeeded (page recorded, links enqueued). -/
theorem crawlStep_cases (ctx : CrawlCtx) (s s' : CrawlState)
    (h : crawlStep ctx s = some s') :
    ∃ current rest, s.to_visit = current :: rest ∧ s.pages.length < ctx.max_pages ∧
      ((current ∈ s.visited ∧ s' = { s with to_visit := rest }) ∨
       (current ∉ s.visited ∧ ctx.fetch current = none ∧
         s' = { visited := current :: s.visited, to_visit := rest, pages := s.pages }) ∨
       (∃ pd, current ∉ s.visited ∧ ctx.fetch current = some pd ∧
         s' = { visited := current :: s.visited,
                to_visit := processLinks ctx (current :: s.visited) current pd.hrefs rest,
                pages := s.pages ++ [pageOf current pd] })) := by
  unfold crawlStep at h
  cases hs : s.to_visit with
  | nil => rw [hs] at h; exact absurd h (by simp)
  | cons current rest =>
    rw [hs] at h
    dsimp only at h
    refine ⟨current, rest, rfl, ?_, ?_⟩
    · by_contra hp
      rw [if_neg hp] at h
      exact absurd h (by simp)
    · by_cases hp : s.pages.length < ctx.max_pages
      · rw [if_pos hp] at h
        by_cases hv : current ∈ s.visited
        · rw [if_pos hv] at h
          cases h
          exact Or.inl ⟨hv, rfl⟩
        · rw [if_neg hv] at h
          cases hf : ctx.fetch current with
          | none =>
            rw [hf] at h
            dsimp only at h
            cases h
            exact Or.inr (Or.inl ⟨hv, rfl, rfl⟩)
          | some pd =>
            rw [hf] at h
            dsimp only at h
            cases h
            exact Or.inr (Or.inr ⟨pd, hv, rfl, rfl⟩)
      · rw [if_neg hp] at h
        exact absurd h (by simp)

/-- The loop guard: `crawlStep` yields `none` exactly when the frontier is
empty or the page budget is exhausted. -/
theorem crawlStep_none_cases (ctx : CrawlCtx) (s : CrawlState)
    (h : crawlStep ctx s = none) :
    s.to_visit = [] ∨ ctx.max_pages ≤ s.pages.length := by
  unfold crawlStep at h
  cases hs : s.to_visit with
  | nil => exact Or.inl rfl
  | cons current rest =>
    rw [hs] at h
    dsimp only at h
    by_cases hp : s.pages.length < ctx.max_pages
    · rw [if_pos hp] at h
      by_cases hv : current ∈ s.visited
      · rw [if_pos hv] at h
        exact absurd h (by simp)
      · rw [if_neg hv] at h
        cases hf : ctx.fetch current with
        | none => rw [hf] at h; exact absurd h (by simp)
        | some pd => rw [hf] at h; exact absurd h (by simp)
    · exact Or.inr (not_lt.mp hp)

theorem crawlLoop_of_none (ctx : CrawlCtx) (s : CrawlState)
    (h : crawlStep ctx s = none) : crawlLoop ctx s = s := by
  rw [crawlLoop, h]

theorem crawlLoop_of_some (ctx : CrawlCtx) (s s' : CrawlState)
    (h : crawlStep ctx s = some s') : crawlLoop ctx s = crawlLoop ctx s' := by
  rw [crawlLoop, h]

/-- The JSON record for one crawled page (lines 1198-1202). -/
def crawlPageJson (p : CrawlPage) : JValue :=
  .obj [("url", .str p.url), ("title", .str p.title),
        ("content_preview", .str p.content_preview)]

/-- The state in which the crawl loop of `_crawl_website_impl` terminates. -/
def crawlFinal (urljoin : String → String → String) (netloc : String → String)
    (fetch : String → Option FetchedPage) (url : String) (max_pages : Nat)
    (same_domain : Bool) : CrawlState :=
  crawlLoop (mkCrawlCtx urljoin netloc fetch (normalizeUrl url) max_pages same_domain)
    (crawlInit (normalizeUrl url))

/-- `_crawl_website_impl` (lines 1155-1232): normalize the seed, run the
loop, and return the success envelope of lines 1227-1232.  The `except`
branch at lines 1234-1239 is modelled separately by `crawlWebsiteErrResp`;
it is reachable only from a failure outside the fetch loop (every per-page
fetch error, the seed's included, is caught inside the loop). -/
def crawlWebsiteImpl (urljoin : String → String → String) (netloc : String → String)
    (fetch : String → Option FetchedPage) (url : String) (max_pages : Nat)
    (same_domain : Bool) : Resp :=
  let final := crawlFinal urljoin netloc fetch url max_pages same_domain
  ⟨.obj [("status", .str "success"),
         ("start_url", .str (normalizeUrl url)),
         ("pages_crawled", .num final.pages.length),
         ("pages", .arr (final.pages.map crawlPageJson))], some 2⟩

/-- The error envelope of lines 1234-1239. -/
def crawlWebsiteErrResp (url msg : String) : Resp :=
  ⟨.obj [("status", .str "error"), ("url", .str url),
         ("message", .str ("Crawl failed: " ++ msg))], some 2⟩

/-!  ## Concrete instantiations of the external collaborators, used by
witnesses and counterexamples. -/

/-- A simple absolute-or-concatenate URL resolver. -/
def urljoinC (base href : String) : String :=
  if pyStartsWith href "http" then href else base ++ href

/-- A simple host extractor in the spirit of `urlparse(u).netloc`. -/
def netlocC (u : String) : String :=
  ⟨((if pyStartsWith u "https://" then u.drop 8
     else if pyStartsWith u "http://" then u.drop 7
     else u).data.takeWhile (fun c => c ≠ '/'))⟩

/-- A web on which every fetch raises. -/
def fetchNoneC : String → Option FetchedPage := fun _ => none

/-- A one-page web: the seed parses with no outbound links. -/
def fetchOneC : String → Option FetchedPage := fun u =>
  if u = "https://example.com/" then some ⟨["Home"], ["hello"], []⟩ else none

/-- A web where the seed links to one same-domain content page. -/
def fetchLinkC : String → Option FetchedPage := fun u =>
  if u = "https://example.com/" then some ⟨["Home"], ["hello"], ["page2"]⟩ else none

/-!  ## Crawler claim theorems -/

/-- Claim C2 (amended): every page whose fetch raises — the seed included —
is simply absent from `pages`, contributes no links, and the crawl continues;
`_crawl_website_impl` returns the success envelope regardless, so no fetch
failure (not even the seed's) surfaces as a top-level error result. -/
theorem c2_fetch_failures_swallowed (urljoin : String → String → String)
    (netloc : String → String) (fetch : String → Option FetchedPage)
    (url : String) (max_pages : Nat) (same_domain : Bool) :
    (∀ p ∈ (crawlFinal urljoin netloc fetch url max_pages same_domain).pages,
        (fetch p.url).isSome = true) ∧
    (∀ (ctx : CrawlCtx) (s : CrawlState) (current : String) (rest : List String),
        s.to_visit = current :: rest → s.pages.length < ctx.max_pages →
        current ∉ s.visited → ctx.fetch current = none →
        crawlStep ctx s = some ⟨current :: s.visited, rest, s.pages⟩) ∧
    (crawlWebsiteImpl urljoin netloc fetch url max_pages same_domain).val.lookupStr
        "status" = some "success" := by
  refine ⟨?_, ?_, rfl⟩
  · have hstep : ∀ t t',
        crawlStep (mkCrawlCtx urljoin netloc fetch (normalizeUrl url) max_pages same_domain) t = some t' →
        (∀ p ∈ t.pages, (fetch p.url).isSome = true) →
        (∀ p ∈ t'.pages, (fetch p.url).isSome = true) := by
      intro t t' h hpg
      rcases crawlStep_cases _ t t' h with ⟨current, rest, hs, hp, hcase⟩
      rcases hcase with ⟨_, rfl⟩ | ⟨_, _, rfl⟩ | ⟨pd, _, hf, rfl⟩
      · exact hpg
      · exact hpg
      · intro p hp'
        rcases List.mem_append.mp hp' with hin | hone
        · exact hpg p hin
        · rw [List.mem_singleton.mp hone]
          show (fetch current).isSome = true
          rw [show fetch current = some pd from hf]
          rfl
    exact fun p hp =>
      inv_of_reaches hstep (reaches_crawlLoop _ _) (by intro p hp; simp [crawlInit] at hp) p hp
  · intro ctx s current rest hs hp hv hf
    unfold crawlStep
    rw [hs]
    dsimp only
    rw [if_pos hp, if_neg hv, hf]

/-- Witness for C2: a failing fetch of the (sole) frontier URL is swallowed —
the URL is marked visited, no page is recorded, no links are enqueued, and
the loop moves on with the rest of the frontier. -/
theorem c2_fetch_failures_swallowed_witness :
    crawlStep (mkCrawlCtx urljoinC netlocC fetchNoneC "https://a.example/" 10 true)
        (crawlInit "https://a.example/") =
      some ⟨["https://a.example/"], [], []⟩ :=
  (c2_fetch_failures_swallowed urljoinC netlocC fetchNoneC "https://a.example/" 10 true).2.1
    _ (crawlInit "https://a.example/") "https://a.example/" [] rfl (by decide)
    (by decide) rfl

/-- Counterexample to C2 as stated: a crawl whose very first (seed) request
fails does NOT surface a top-level error — it returns the success envelope
with zero pages crawled. -/
theorem c2_counterexample :
    (crawlWebsiteImpl urljoinC netlocC fetchNoneC "https://a.example/" 10 true).val.lookupStr
        "status" = some "success" ∧
    (crawlWebsiteImpl urljoinC netlocC fetchNoneC "https://a.example/" 10 true).val.lookupStr
        "status" ≠ some "error" ∧
    (crawlWebsiteImpl urljoinC netlocC fetchNoneC "https://a.example/" 10 true).val.lookupNum
        "pages_crawled" = some 0 := by
  have h1 : crawlStep (mkCrawlCtx urljoinC netlocC fetchNoneC
      (normalizeUrl "https://a.example/") 10 true) (crawlInit (normalizeUrl "https://a.example/")) =
      some ⟨["https://a.example/"], [], []⟩ := by decide
  have h2 : crawlStep (mkCrawlCtx urljoinC netlocC fetchNoneC
      (normalizeUrl "https://a.example/") 10 true)
      (⟨["https://a.example/"], [], []⟩ : CrawlState) = none := by decide
  have hfin : crawlFinal urljoinC netlocC fetchNoneC "https://a.example/" 10 true =
      ⟨["https://a.example/"], [], []⟩ := by
    unfold crawlFinal
    rw [crawlLoop_of_some _ _ _ h1, crawlLoop_of_none _ _ h2]
  refine ⟨rfl, by decide, ?_⟩
  unfold crawlWebsiteImpl
  rw [hfin]
  rfl

/-- Claim C7: `len(pages) ≤ max_pages` is an invariant of every loop
iteration, the returned pages list has at most `max_pages` entries, and the
traversal stops exactly when the frontier is empty or the page count has
reached the budget. -/
theorem c7_page_budget (urljoin : String → String → String) (netloc : String → String)
    (fetch : String → Option FetchedPage) (url : String) (max_pages : Nat)
    (same_domain : Bool) :
    (∀ s, Reaches (mkCrawlCtx urljoin netloc fetch (normalizeUrl url) max_pages same_domain)
        (crawlInit (normalizeUrl url)) s → s.pages.length ≤ max_pages) ∧
    (crawlFinal urljoin netloc fetch url max_pages same_domain).pages.length ≤ max_pages ∧
    ((crawlFinal urljoin netloc fetch url max_pages same_domain).to_visit = [] ∨
      (crawlFinal urljoin netloc fetch url max_pages same_domain).pages.length = max_pages) ∧
    (crawlWebsiteImpl urljoin netloc fetch url max_pages same_domain).val.lookupArr "pages" =
      some ((crawlFinal urljoin netloc fetch url max_pages same_domain).pages.map
        crawlPageJson) := by
  have hstep : ∀ t t',
      crawlStep (mkCrawlCtx urljoin netloc fetch (normalizeUrl url) max_pages same_domain) t = some t' →
      t.pages.length ≤ max_pages → t'.pages.length ≤ max_pages := by
    intro t t' h hle
    rcases crawlStep_cases _ t t' h with ⟨current, rest, hs, hp, hcase⟩
    rcases hcase with ⟨_, rfl⟩ | ⟨_, _, rfl⟩ | ⟨pd, _, _, rfl⟩
    · exact hle
    · exact hle
    · have hp' : t.pages.length < max_pages := hp
      simp only [List.length_append, List.length_singleton]
      omega
  have hinv : ∀ s, Reaches (mkCrawlCtx urljoin netloc fetch (normalizeUrl url) max_pages same_domain)
      (crawlInit (normalizeUrl url)) s → s.pages.length ≤ max_pages :=
    fun s hr => inv_of_reaches hstep hr (by simp [crawlInit])
  have hfin : Reaches (mkCrawlCtx urljoin netloc fetch (normalizeUrl url) max_pages same_domain)
      (crawlInit (normalizeUrl url)) (crawlFinal urljoin netloc fetch url max_pages same_domain) :=
    reaches_crawlLoop _ _
  refine ⟨hinv, hinv _ hfin, ?_, rfl⟩
  rcases crawlStep_none_cases _ _
      (crawlStep_crawlLoop (mkCrawlCtx urljoin netloc fetch (normalizeUrl url) max_pages same_domain)
        (crawlInit (normalizeUrl url))) with he | hge
  · exact Or.inl he
  · exact Or.inr (le_antisymm (hinv _ hfin) hge)

/-- Witness for C7 at the initial state of a concrete crawl. -/
theorem c7_page_budget_witness :
    (crawlInit (normalizeUrl "https://a.example/")).pages.length ≤ 10 :=
  (c7_page_budget urljoinC netlocC fetchNoneC "https://a.example/" 10 true).1
    _ (.refl _)

/-- Claim C8: with the same-domain restriction enabled, every returned page
record's URL has exactly the seed's host: discovered links with a different
host are discarded before enqueue, and the (normalized) seed trivially
satisfies the restriction. -/
theorem c8_same_domain_hosts (urljoin : String → String → String)
    (netloc : String → String) (fetch : String → Option FetchedPage)
    (url : String) (max_pages : Nat) :
    ∀ p ∈ (crawlFinal urljoin netloc fetch url max_pages true).pages,
      netloc p.url = netloc (normalizeUrl url) := by
  have hstep : ∀ t t',
      crawlStep (mkCrawlCtx urljoin netloc fetch (normalizeUrl url) max_pages true) t = some t' →
      ((∀ u ∈ t.to_visit, netloc u = netloc (normalizeUrl url)) ∧
        (∀ p ∈ t.pages, netloc p.url = netloc (normalizeUrl url))) →
      ((∀ u ∈ t'.to_visit, netloc u = netloc (normalizeUrl url)) ∧
        (∀ p ∈ t'.pages, netloc p.url = netloc (normalizeUrl url))) := by
    intro t t' h hP
    obtain ⟨htv, hpg⟩ := hP
    rcases crawlStep_cases _ t t' h with ⟨current, rest, hs, hp, hcase⟩
    have hcur : netloc current = netloc (normalizeUrl url) :=
      htv current (by rw [hs]; exact .head _)
    have hrest : ∀ u ∈ rest, netloc u = netloc (normalizeUrl url) :=
      fun u hu => htv u (by rw [hs]; exact .tail _ hu)
    rcases hcase with ⟨_, rfl⟩ | ⟨_, _, rfl⟩ | ⟨pd, _, _, rfl⟩
    · exact ⟨hrest, hpg⟩
    · exact ⟨hrest, hpg⟩
    · constructor
      · intro u hu
        rcases mem_processLinks _ _ current pd.hrefs rest u hu with hin | ⟨_, hsd, _, _⟩
        · exact hrest u hin
        · exact hsd rfl
      · intro p hp'
        rcases List.mem_append.mp hp' with hin | hone
        · exact hpg p hin
        · rw [List.mem_singleton.mp hone]
          exact hcur
  have hinit : (∀ u ∈ (crawlInit (normalizeUrl url)).to_visit,
      netloc u = netloc (normalizeUrl url)) ∧
      (∀ p ∈ (crawlInit (normalizeUrl url)).pages,
        netloc p.url = netloc (normalizeUrl url)) := by
    refine ⟨?_, by intro p hp; simp [crawlInit] at hp⟩
    intro u hu
    rw [List.mem_singleton.mp hu]
  exact fun p hp =>
    (inv_of_reaches hstep (reaches_crawlLoop _ _) hinit).2 p hp

set_option maxRecDepth 4000 in
/-- Witness for C8: a one-page same-domain crawl; the sole returned page is
the seed and its host matches the seed's host. -/
theorem c8_same_domain_hosts_witness :
    netlocC (pageOf "https://example.com/" ⟨["Home"], ["hello"], []⟩).url =
      netlocC (normalizeUrl "https://example.com/") := by
  have h1 : crawlStep (mkCrawlCtx urljoinC netlocC fetchOneC
      (normalizeUrl "https://example.com/") 10 true)
      (crawlInit (normalizeUrl "https://example.com/")) =
      some ⟨["https://example.com/"], [],
        [pageOf "https://example.com/" ⟨["Home"], ["hello"], []⟩]⟩ := by decide
  have h2 : crawlStep (mkCrawlCtx urljoinC netlocC fetchOneC
      (normalizeUrl "https://example.com/") 10 true)
      (⟨["https://example.com/"], [],
        [pageOf "https://example.com/" ⟨["Home"], ["hello"], []⟩]⟩ : CrawlState) = none := by
    decide
  apply c8_same_domain_hosts urljoinC netlocC fetchOneC "https://example.com/" 10
  have hfin : crawlFinal urljoinC netlocC fetchOneC "https://example.com/" 10 true =
      ⟨["https://example.com/"], [],
        [pageOf "https://example.com/" ⟨["Home"], ["hello"], []⟩]⟩ := by
    unfold crawlFinal
    rw [crawlLoop_of_some _ _ _ h1, crawlLoop_of_none _ _ h2]
  rw [hfin]
  exact List.mem_singleton.mpr rfl

/-- Claim C9 (amended): apart from the seed URL itself — which line 1167
places in the frontier unfiltered — the frontier never contains a URL
matching the skip patterns (fragment, `mailto:`/`tel:`, or the non-content
file extensions) at any step of the traversal. -/
theorem c9_frontier_skip_free (urljoin : String → String → String)
    (netloc : String → String) (fetch : String → Option FetchedPage)
    (url : String) (max_pages : Nat) (same_domain : Bool) :
    ∀ s, Reaches (mkCrawlCtx urljoin netloc fetch (normalizeUrl url) max_pages same_domain)
        (crawlInit (normalizeUrl url)) s →
      ∀ u ∈ s.to_visit, u = normalizeUrl url ∨ shouldSkip u = false := by
  intro s hr
  refine inv_of_reaches
    (P := fun t => ∀ u ∈ t.to_visit, u = normalizeUrl url ∨ shouldSkip u = false) ?_ hr ?_
  · intro t t' h hP
    rcases crawlStep_cases _ t t' h with ⟨current, rest, hs, hp, hcase⟩
    have hrest : ∀ u ∈ rest, u = normalizeUrl url ∨ shouldSkip u = false :=
      fun u hu => hP u (by rw [hs]; exact .tail _ hu)
    rcases hcase with ⟨_, rfl⟩ | ⟨_, _, rfl⟩ | ⟨pd, _, _, rfl⟩
    · exact hrest
    · exact hrest
    · intro u hu
      rcases mem_processLinks _ _ current pd.hrefs rest u hu with hin | ⟨_, _, hskip, _⟩
      · exact hrest u hin
      · exact Or.inr hskip
  · intro u hu
    exact Or.inl (List.mem_singleton.mp hu)

set_option maxRecDepth 4000 in
/-- Witness for C9: after the seed of a concrete crawl is fetched and its
link enqueued, the frontier URL satisfies the (amended) invariant. -/
theorem c9_frontier_skip_free_witness :
    "https://example.com/page2" = normalizeUrl "https://example.com/" ∨
      shouldSkip "https://example.com/page2" = false := by
  have h1 : crawlStep (mkCrawlCtx urljoinC netlocC fetchLinkC
      (normalizeUrl "https://example.com/") 10 true)
      (crawlInit (normalizeUrl "https://example.com/")) =
      some ⟨["https://example.com/"], ["https://example.com/page2"],
        [pageOf "https://example.com/" ⟨["Home"], ["hello"], ["page2"]⟩]⟩ := by decide
  exact c9_frontier_skip_free urljoinC netlocC fetchLinkC "https://example.com/" 10 true
    _ (.tail (.refl _) h1) "https://example.com/page2" (by decide)

/-- Counterexample to C9 as stated: when the seed URL itself matches a skip
pattern (here a `.pdf`), the frontier does contain such a URL — at the very
first step of the traversal, before the first pop. -/
theorem c9_counterexample :
    ¬ (∀ s, Reaches (mkCrawlCtx urljoinC netlocC fetchNoneC
            (normalizeUrl "https://example.com/doc.pdf") 10 true)
          (crawlInit (normalizeUrl "https://example.com/doc.pdf")) s →
        ∀ u ∈ s.to_visit, shouldSkip u = false) := by
  intro hcl
  have h := hcl _ (.refl _) "https://example.com/doc.pdf" (by decide)
  exact absurd h (by decide)

/-- Claim C10: the skip filter is a case-insensitive substring test over the
whole absolute URL — a URL is skipped iff some pattern occurs anywhere in its
lowercased text — such a URL is never enqueued, and in particular a content
page with a fragment (`page#intro`) and a URL merely containing a pattern
(`data.json` contains `.js`) are excluded. -/
theorem c10_skip_substring_filter :
    (∀ u : String, shouldSkip u = true ↔
        ∃ p ∈ skipPatterns, p.data <:+: (pyLower u).data) ∧
    (∀ (ctx : CrawlCtx) (visited : List String) (current : String)
        (hrefs tv : List String) (u : String),
        shouldSkip u = true → u ∈ processLinks ctx visited current hrefs tv → u ∈ tv) ∧
    shouldSkip "https://example.com/page#intro" = true ∧
    shouldSkip "https://example.com/data.json" = true := by
  refine ⟨?_, ?_, by decide, by decide⟩
  · intro u
    unfold shouldSkip strContainsSub
    rw [List.any_eq_true]
    constructor
    · rintro ⟨p, hp, hsub⟩
      rw [List.any_eq_true] at hsub
      obtain ⟨t, ht, hpref⟩ := hsub
      exact ⟨p, hp, List.infix_iff_prefix_suffix.mpr
        ⟨t, List.isPrefixOf_iff_prefix.mp hpref, (List.mem_tails _ _).mp ht⟩⟩
    · rintro ⟨p, hp, hinf⟩
      obtain ⟨t, hpref, hsuf⟩ := List.infix_iff_prefix_suffix.mp hinf
      exact ⟨p, hp, List.any_eq_true.mpr
        ⟨t, (List.mem_tails _ _).mpr hsuf, List.isPrefixOf_iff_prefix.mpr hpref⟩⟩
  · intro ctx visited current hrefs tv u hskip hmem
    rcases mem_processLinks ctx visited current hrefs tv u hmem with hin | ⟨_, _, hfalse, _⟩
    · exact hin
    · rw [hskip] at hfalse
      cases hfalse

/-!  ## Tool response envelopes (claim C3)

Every tool handler is `try: <external call + reshaping>; except: <error
envelope>`, returning `json.dumps(obj, ...)`.  Each handler below is
embedded as a function from an abstract outcome of its external calls to the
`Resp` (object + `indent` argument) of the `json.dumps` site it reaches.
Raw backend result dicts are modelled by `RawResult`; exception messages are
the `str(e)` strings. -/

/-- Python `len(s)`. -/
def pyLen (s : String) : Nat := s.data.length

/-- The recurring truncation idiom
`text[:n] + sfx if len(text) > n else text`. -/
def truncateWith (text : String) (n : Nat) (sfx : String) : String :=
  if n < pyLen text then pySlice text n ++ sfx else text

/-- Python `s.replace(a, b)` for single characters. -/
def pyReplaceChar (s : String) (a b : Char) : String :=
  ⟨s.data.map (fun c => if c = a then b else c)⟩

/-- Python `s.split()`: split on whitespace runs, dropping empty words. -/
def pySplitWs (s : String) : List String :=
  ((s.data.foldr (fun c acc =>
      if c.isWhitespace then [] :: acc
      else match acc with
        | [] => [[c]]
        | w :: ws => (c :: w) :: ws) []).filter (fun w => w ≠ [])).map
    (fun w => ⟨w⟩)

/-- One raw result dict from the search backend. -/
structure RawResult where
  fields : List (String × JValue)

/-- Python `result.get(k, d)`. -/
def RawResult.getD (r : RawResult) (k : String) (d : JValue) : JValue :=
  (r.fields.lookup k).getD d

/-- Lines 84-89: the reshaped entry of `_search_web_impl`. -/
def formatWebResult (r : RawResult) : JValue :=
  .obj [("title", r.getD "title" (.str "No title")),
        ("url", r.getD "href" (.str "No URL")),
        ("snippet", r.getD "body" (.str "No description"))]

/-- `_search_web_impl` (lines 64-102).  The outcome is the `ddgs.text`
call: a result list on success, `str(e)` on an exception. -/
def searchWebImpl (query : String) (outcome : Except String (List RawResult)) : Resp :=
  match outcome with
  | .ok results =>
    if results.isEmpty then
      ⟨.obj [("status", .str "success"), ("results", .arr []),
             ("message", .str "No results found.")], none⟩
    else
      ⟨.obj [("status", .str "success"), ("query", .str query),
             ("results", .arr (results.map formatWebResult))], some 2⟩
  | .error e =>
    ⟨.obj [("status", .str "error"), ("query", .str query),
           ("message", .str ("Search failed: " ++ e))], some 2⟩

/-- The two failure modes distinguished by `_fetch_webpage_impl`
(lines 175-186): `httpx.HTTPStatusError` and everything else. -/
inductive FetchErr where
  | httpStatus (code : Nat) (reason : String)
  | other (msg : String)

/-- The artefacts `_fetch_webpage_impl` reads out of the parsed document. -/
structure ParsedDoc where
  title_texts : List String
  desc_texts : List String
  body_texts : List String

/-- `_fetch_webpage_impl` (lines 120-186). -/
def fetchWebpageImpl (url : String) (max_length : Nat)
    (outcome : Except FetchErr ParsedDoc) : Resp :=
  let url' := normalizeUrl url
  match outcome with
  | .ok d =>
    let title := match d.title_texts with | [] => "No title" | t :: _ => pyStrip t
    let description := match d.desc_texts with | [] => "" | t :: _ => t
    let text := truncateWith
      (String.intercalate " " ((d.body_texts.map pyStrip).filter (fun s => s != "")))
      max_length "... [truncated]"
    ⟨.obj [("status", .str "success"), ("url", .str url'), ("title", .str title),
           ("description", .str description), ("content", .str text)], some 2⟩
  | .error (.httpStatus code reason) =>
    ⟨.obj [("status", .str "error"), ("url", .str url'),
           ("message", .str ("HTTP error " ++ toString code ++ ": " ++ reason))], some 2⟩
  | .error (.other msg) =>
    ⟨.obj [("status", .str "error"), ("url", .str url'),
           ("message", .str ("Failed to fetch webpage: " ++ msg))], some 2⟩

/-- What `_fetch_webpage_js_impl` reads from the rendered page. -/
structure JsDoc where
  title : String
  description : String
  inner_text : String

/-- `_fetch_webpage_js_impl` (lines 204-265). -/
def fetchWebpageJsImpl (url : String) (max_length : Nat)
    (outcome : Except String JsDoc) : Resp :=
  let url' := normalizeUrl url
  match outcome with
  | .ok d =>
    let text := truncateWith (String.intercalate " " (pySplitWs d.inner_text))
      max_length "... [truncated]"
    ⟨.obj [("status", .str "success"), ("url", .str url'), ("title", .str d.title),
           ("description", .str d.description), ("content", .str text)], some 2⟩
  | .error e =>
    ⟨.obj [("status", .str "error"), ("url", .str url'),
           ("message", .str ("Failed to fetch webpage: " ++ e))], some 2⟩

/-- Lines 300-306: the reshaped entry of `_search_news_impl`. -/
def formatNewsResult (r : RawResult) : JValue :=
  .obj [("title", r.getD "title" (.str "No title")),
        ("url", r.getD "url" (.str "No URL")),
        ("snippet", r.getD "body" (.str "No description")),
        ("source", r.getD "source" (.str "Unknown")),
        ("date", r.getD "date" (.str "Unknown"))]

/-- `_search_news_impl` (lines 289-319). -/
def searchNewsImpl (query : String) (outcome : Except String (List RawResult)) : Resp :=
  match outcome with
  | .ok results =>
    if results.isEmpty then
      ⟨.obj [("status", .str "success"), ("results", .arr []),
             ("message", .str "No news found.")], none⟩
    else
      ⟨.obj [("status", .str "success"), ("query", .str query),
             ("results", .arr (results.map formatNewsResult))], some 2⟩
  | .error e =>
    ⟨.obj [("status", .str "error"), ("query", .str query),
           ("message", .str ("News search failed: " ++ e))], some 2⟩

/-- Lines 352-360: the reshaped entry of `_search_images_impl`. -/
def formatImageResult (r : RawResult) : JValue :=
  .obj [("title", r.getD "title" (.str "No title")),
        ("image_url", r.getD "image" (.str "")),
        ("thumbnail_url", r.getD "thumbnail" (.str "")),
        ("source_url", r.getD "url" (.str "")),
        ("width", r.getD "width" (.num 0)),
        ("height", r.getD "height" (.num 0)),
        ("source", r.getD "source" (.str "Unknown"))]

/-- `_search_images_impl` (lines 341-373). -/
def searchImagesImpl (query : String) (outcome : Except String (List RawResult)) : Resp :=
  match outcome with
  | .ok results =>
    if results.isEmpty then
      ⟨.obj [("status", .str "success"), ("results", .arr []),
             ("message", .str "No images found.")], none⟩
    else
      ⟨.obj [("status", .str "success"), ("query", .str query),
             ("results", .arr (results.map formatImageResult))], some 2⟩
  | .error e =>
    ⟨.obj [("status", .str "error"), ("query", .str query),
           ("message", .str ("Image search failed: " ++ e))], some 2⟩

/-- `_take_screenshot_impl` (lines 396-440); `abspath` stands for
`os.path.abspath`, the outcome carries the captured bytes' base64 string. -/
def takeScreenshotImpl (abspath : String → String) (netloc : String → String)
    (url : String) (full_page : Bool) (output_path : Option String)
    (outcome : Except String String) : Resp :=
  let url' := normalizeUrl url
  match outcome with
  | .ok b64 =>
    let auto := "screenshot_" ++ pyReplaceChar (netloc url') '.' '_' ++ ".png"
    let path := match output_path with
      | none => auto
      | some p => if p = "" then auto else p
    let preview := if 500 < pyLen b64 then pySlice b64 500 ++ "..." else b64
    ⟨.obj [("status", .str "success"), ("url", .str url'),
           ("saved_to", .str (abspath path)), ("full_page", .bool full_page),
           ("base64_preview", .str preview)], some 2⟩
  | .error e =>
    ⟨.obj [("status", .str "error"), ("url", .str url'),
           ("message", .str ("Screenshot failed: " ++ e))], some 2⟩

/-- Lines 480-508: the link-collection loop of `_extract_links_impl` over
the page's anchors, given as `(href, text_content)` pairs. -/
def extractLinksList (urljoin : String → String → String) (netloc : String → String)
    (url' : String) (same_domain_only : Bool)
    (anchors : List (String × String)) : List (String × String) :=
  (anchors.foldl (fun (acc : List (String × String) × List String) a =>
    let text := if a.2 != "" then pySlice (pyStrip a.2) 100 else ""
    let full_url := urljoin url' a.1
    if !(pyStartsWith full_url "http://" || pyStartsWith full_url "https://") then acc
    else if same_domain_only && netloc full_url != netloc url' then acc
    else if full_url ∈ acc.2 then acc
    else (acc.1 ++ [(full_url, text)], acc.2 ++ [full_url])) ([], [])).1

/-- `_extract_links_impl` (lines 463-522). -/
def extractLinksImpl (urljoin : String → String → String) (netloc : String → String)
    (url : String) (same_domain_only : Bool)
    (outcome : Except String (List (String × String))) : Resp :=
  let url' := normalizeUrl url
  match outcome with
  | .ok anchors =>
    let links := extractLinksList urljoin netloc url' same_domain_only anchors
    ⟨.obj [("status", .str "success"), ("source_url", .str url'),
           ("total_links", .num links.length),
           ("links", .arr (links.map (fun l =>
             .obj [("url", .str l.1), ("text", .str l.2)])))], some 2⟩
  | .error e =>
    ⟨.obj [("status", .str "error"), ("url", .str url'),
           ("message", .str ("Failed to extract links: " ++ e))], some 2⟩

/-- Outcome of `_search_wikipedia_impl`'s HTTP exchanges: a 404 with the
fallback search's `(title, url)` suggestions, a summary, or an exception. -/
inductive WikiOutcome where
  | notFound (suggestions : List (String × String))
  | ok (title description extract pageUrl thumbnail : String)
  | err (msg : String)

/-- `_search_wikipedia_impl` (lines 544-603), including the sentence
truncation of lines 581-587. -/
def searchWikipediaImpl (query : String) (sentences : Nat)
    (outcome : WikiOutcome) : Resp :=
  match outcome with
  | .notFound suggestions =>
    if suggestions.isEmpty then
      ⟨.obj [("status", .str "not_found"), ("query", .str query),
             ("message", .str "No Wikipedia article found for this query.")], some 2⟩
    else
      ⟨.obj [("status", .str "not_found"), ("query", .str query),
             ("message", .str "Article not found. Did you mean:"),
             ("suggestions", .arr (suggestions.map (fun s =>
               .obj [("title", .str s.1), ("url", .str s.2)])))], some 2⟩
  | .ok title description extract pageUrl thumbnail =>
    let extract' :=
      if sentences ≠ 0 ∧ extract ≠ "" then
        let e := String.intercalate ". " ((extract.splitOn ". ").take sentences)
        if !(pyEndsWith e ".") then e ++ "." else e
      else extract
    ⟨.obj [("status", .str "success"), ("title", .str title),
           ("description", .str description), ("extract", .str extract'),
           ("url", .str pageUrl), ("thumbnail", .str thumbnail)], some 2⟩
  | .err e =>
    ⟨.obj [("status", .str "error"), ("query", .str query),
           ("message", .str ("Wikipedia search failed: " ++ e))], some 2⟩

/-- Line 642: the defensively accessed view count of a video result. -/
def youtubeViews (r : RawResult) : JValue :=
  match r.fields.lookup "statistics" with
  | some (.obj fs) => (fs.lookup "viewCount").getD (.str "Unknown")
  | _ => .str "Unknown"

/-- Line 643: the defensively accessed large thumbnail of a video result. -/
def youtubeThumb (r : RawResult) : JValue :=
  match r.fields.lookup "images" with
  | some (.obj fs) => (fs.lookup "large").getD (.str "")
  | _ => .str ""

/-- Lines 636-644: the reshaped entry of `_search_youtube_impl`. -/
def formatVideoResult (r : RawResult) : JValue :=
  .obj [("title", r.getD "title" (.str "No title")),
        ("url", r.getD "content" (.str "")),
        ("description", r.getD "description" (.str "")),
        ("publisher", r.getD "publisher" (.str "Unknown")),
        ("duration", r.getD "duration" (.str "")),
        ("views", youtubeViews r),
        ("thumbnail", youtubeThumb r)]

/-- `_search_youtube_impl` (lines 625-657). -/
def searchYoutubeImpl (query : String) (outcome : Except String (List RawResult)) : Resp :=
  match outcome with
  | .ok results =>
    if results.isEmpty then
      ⟨.obj [("status", .str "success"), ("results", .arr []),
             ("message", .str "No videos found.")], none⟩
    else
      ⟨.obj [("status", .str "success"), ("query", .str query),
             ("results", .arr (results.map formatVideoResult))], some 2⟩
  | .error e =>
    ⟨.obj [("status", .str "error"), ("query", .str query),
           ("message", .str ("YouTube search failed: " ++ e))], some 2⟩

/-- The already-extracted artefacts `_get_page_metadata_impl` reshapes; the
OpenGraph and Twitter-card dicts are taken after the collection loops of
lines 706-719. -/
structure MetaDoc where
  title_texts : List String
  desc_texts : List String
  keyword_texts : List String
  canonical_texts : List String
  favicon : String
  og : List (String × String)
  twitter : List (String × String)

/-- `_get_page_metadata_impl` (lines 679-746). -/
def getPageMetadataImpl (url : String) (outcome : Except String MetaDoc) : Resp :=
  let url' := normalizeUrl url
  match outcome with
  | .ok d =>
    ⟨.obj [("status", .str "success"), ("url", .str url'),
           ("title", .str (match d.title_texts with | [] => "" | t :: _ => pyStrip t)),
           ("description", .str (match d.desc_texts with | [] => "" | t :: _ => t)),
           ("keywords", .str (match d.keyword_texts with | [] => "" | t :: _ => t)),
           ("canonical_url", .str (match d.canonical_texts with | [] => "" | t :: _ => t)),
           ("favicon", .str d.favicon),
           ("opengraph", .obj (d.og.map (fun kv => (kv.1, .str kv.2)))),
           ("twitter_card", .obj (d.twitter.map (fun kv => (kv.1, .str kv.2))))], some 2⟩
  | .error e =>
    ⟨.obj [("status", .str "error"), ("url", .str url'),
           ("message", .str ("Failed to extract metadata: " ++ e))], some 2⟩

/-- The defensively extracted fields of the weather backend's response
(lines 784-810). -/
structure WeatherDoc where
  location_name : String
  region : String
  country : String
  temp_c : String
  temp_f : String
  feels_c : String
  feels_f : String
  condition : String
  humidity : String
  wind_kph : String
  wind_mph : String
  wind_dir : String
  uv : String
  vis : String
  pressure : String

/-- `_get_weather_impl` (lines 768-819). -/
def getWeatherImpl (location : String) (outcome : Except String WeatherDoc) : Resp :=
  match outcome with
  | .ok d =>
    ⟨.obj [("status", .str "success"),
           ("location", .obj [("name", .str d.location_name), ("region", .str d.region),
             ("country", .str d.country)]),
           ("current", .obj [("temperature_c", .str d.temp_c),
             ("temperature_f", .str d.temp_f), ("feels_like_c", .str d.feels_c),
             ("feels_like_f", .str d.feels_f), ("condition", .str d.condition),
             ("humidity", .str (d.humidity ++ "%")), ("wind_kph", .str d.wind_kph),
             ("wind_mph", .str d.wind_mph), ("wind_direction", .str d.wind_dir),
             ("uv_index", .str d.uv), ("visibility_km", .str d.vis),
             ("pressure_mb", .str d.pressure)])], some 2⟩
  | .error e =>
    ⟨.obj [("status", .str "error"), ("location", .str location),
           ("message", .str ("Weather lookup failed: " ++ e))], some 2⟩

/-- Outcome of `_translate_text_impl`'s exchange: a translation with the
detected source language, a non-200 `responseStatus` carrying the optional
`responseDetails`, or an exception. -/
inductive TranslateOutcome where
  | ok (translated source_lang : String)
  | apiErr (details : Option String)
  | exc (msg : String)

/-- `_translate_text_impl` (lines 840-889). -/
def translateTextImpl (text target_lang : String) (outcome : TranslateOutcome) : Resp :=
  match outcome with
  | .ok translated source_lang =>
    ⟨.obj [("status", .str "success"), ("original_text", .str text),
           ("translated_text", .str translated),
           ("source_language", .str source_lang),
           ("target_language", .str target_lang)], some 2⟩
  | .apiErr details =>
    ⟨.obj [("status", .str "error"),
           ("message", .str (details.getD "Translation failed"))], some 2⟩
  | .exc e =>
    ⟨.obj [("status", .str "error"), ("text", .str text),
           ("message", .str ("Translation failed: " ++ e))], some 2⟩

/-- Lines 922-934: the reshaped entry of `_search_maps_impl`. -/
def formatMapsResult (r : RawResult) : JValue :=
  .obj [("title", r.getD "title" (.str "No title")),
        ("address", r.getD "address" (.str "")),
        ("city", r.getD "city" (.str "")),
        ("state", r.getD "state" (.str "")),
        ("country", r.getD "country" (.str "")),
        ("phone", r.getD "phone" (.str "")),
        ("website", r.getD "url" (.str "")),
        ("latitude", r.getD "latitude" (.str "")),
        ("longitude", r.getD "longitude" (.str "")),
        ("category", r.getD "category" (.str ""))]

/-- `_search_maps_impl` (lines 912-947). -/
def searchMapsImpl (query : String) (outcome : Except String (List RawResult)) : Resp :=
  match outcome with
  | .ok results =>
    if results.isEmpty then
      ⟨.obj [("status", .str "success"), ("results", .arr []),
             ("message", .str "No places found.")], none⟩
    else
      ⟨.obj [("status", .str "success"), ("query", .str query),
             ("results", .arr (results.map formatMapsResult))], some 2⟩
  | .error e =>
    ⟨.obj [("status", .str "error"), ("query", .str query),
           ("message", .str ("Maps search failed: " ++ e))], some 2⟩

/-- What `_fetch_as_markdown_impl` reads from the converted page: the title
texts and the Markdown string after the whitespace cleanup of
lines 1015-1016 (the `markdownify` conversion and regex are external). -/
structure MdDoc where
  title_texts : List String
  content : String

/-- `_fetch_as_markdown_impl` (lines 969-1038).  A cache hit (lines 973-976)
replays the stored response verbatim, before URL normalization. -/
def fetchAsMarkdownImpl (url : String) (max_length : Nat) (cached : Option Resp)
    (outcome : Except String MdDoc) : Resp :=
  match cached with
  | some r => r
  | none =>
    let url' := normalizeUrl url
    match outcome with
    | .ok d =>
      ⟨.obj [("status", .str "success"), ("url", .str url'),
             ("title", .str (match d.title_texts with | [] => "No title" | t :: _ => pyStrip t)),
             ("content_markdown",
               .str (truncateWith d.content max_length "\n\n... [truncated]"))], some 2⟩
    | .error e =>
      ⟨.obj [("status", .str "error"), ("url", .str url'),
             ("message", .str ("Failed to fetch as markdown: " ++ e))], some 2⟩

/-- One transcript segment as reshaped by lines 1099-1108; the rounded
start/duration numbers are carried as opaque JSON values. -/
structure TranscriptEntry where
  text : String
  start : JValue
  duration : JValue

/-- Outcome of `_get_youtube_transcript_impl`'s external calls: the import
failure caught by the outer `except`, a fetched transcript, or the fetch
failure caught by the inner `except` (lines 1121-1126). -/
inductive TranscriptOutcome where
  | importErr (msg : String)
  | ok (entries : List TranscriptEntry)
  | fetchErr (msg : String)

/-- `_get_youtube_transcript_impl` (lines 1061-1133).  `videoId` is the
regex extraction of lines 1066-1077; a cache hit replays the stored
response verbatim. -/
def getYoutubeTranscriptImpl (video_url language : String) (videoId : Option String)
    (cached : Option Resp) (outcome : TranscriptOutcome) : Resp :=
  match outcome with
  | .importErr e =>
    ⟨.obj [("status", .str "error"), ("url", .str video_url),
           ("message", .str ("Failed to get transcript: " ++ e))], some 2⟩
  | .ok entries =>
    match videoId with
    | none =>
      ⟨.obj [("status", .str "error"),
             ("message", .str "Could not extract video ID from URL")], some 2⟩
    | some vid =>
      match cached with
      | some r => r
      | none =>
        let full_text := pyStrip ⟨(entries.foldl
          (fun acc e => acc ++ e.text ++ " ") "").data⟩
        ⟨.obj [("status", .str "success"), ("video_id", .str vid),
               ("language", .str language), ("full_text", .str full_text),
               ("segments", .arr ((entries.map (fun e =>
                 JValue.obj [("start", e.start), ("duration", e.duration),
                   ("text", .str e.text)])).take 100))], some 2⟩
  | .fetchErr e =>
    match videoId with
    | none =>
      ⟨.obj [("status", .str "error"),
             ("message", .str "Could not extract video ID from URL")], some 2⟩
    | some vid =>
      match cached with
      | some r => r
      | none =>
        ⟨.obj [("status", .str "error"), ("video_id", .str vid),
               ("message", .str ("Transcript error: " ++ e))], some 2⟩

/-- The parsed PDF artefacts `_read_pdf_url_impl` reshapes. -/
structure PdfDoc where
  title : String
  author : String
  subject : String
  creator : String
  pageTexts : List String

/-- Outcome of `_read_pdf_url_impl`'s download and parse: an exception
anywhere in the `try` block, or a response with its content type and the
parsed document. -/
inductive PdfOutcome where
  | err (msg : String)
  | fetched (content_type : String) (pdf : PdfDoc)

/-- `_read_pdf_url_impl` (lines 1262-1341), including the content-type test
of lines 1284-1291, the page loop over `min(len(doc), max_pages)` pages with
the per-page 3000-character limit, and the 50000-character full-text
truncation. -/
def readPdfUrlImpl (url : String) (max_pages : Nat) (cached : Option Resp)
    (outcome : PdfOutcome) : Resp :=
  let url' := normalizeUrl url
  match cached with
  | some r => r
  | none =>
    match outcome with
    | .err e =>
      ⟨.obj [("status", .str "error"), ("url", .str url'),
             ("message", .str ("Failed to read PDF: " ++ e))], some 2⟩
    | .fetched content_type pdf =>
      if !(strContainsSub (pyLower content_type) "pdf") &&
          !(pyEndsWith (pyLower url') ".pdf") then
        ⟨.obj [("status", .str "error"), ("url", .str url'),
               ("message", .str "URL does not appear to be a PDF file")], some 2⟩
      else
        let used := pdf.pageTexts.take max_pages
        let full_text := pyStrip (truncateWith
          (used.foldl (fun acc t => acc ++ t ++ "\n\n") "") 50000 "\n\n... [truncated]")
        ⟨.obj [("status", .str "success"), ("url", .str url'),
               ("metadata", .obj [("title", .str pdf.title), ("author", .str pdf.author),
                 ("subject", .str pdf.subject), ("creator", .str pdf.creator),
                 ("total_pages", .num pdf.pageTexts.length)]),
               ("full_text", .str full_text),
               ("pages", .arr (used.mapIdx (fun i t =>
                 JValue.obj [("page", .num (i + 1)),
                   ("text", .str (pySlice t 3000))])))], some 2⟩

/-- Python dict assignment `d[k] = v`: overwrite in place or append. -/
def setAssoc (m : List (String × JValue)) (k : String) (v : JValue) :
    List (String × JValue) :=
  if (m.lookup k).isSome then m.map (fun kv => if kv.1 = k then (k, v) else kv)
  else m ++ [(k, v)]

/-- `_batch_search_impl` (lines 1363-1393): the outer outcome is the `DDGS()`
construction, the per-query backend may fail individually (lines 1380-1381),
and only the first 10 queries are searched while `total_queries` reports the
full count. -/
def batchSearchImpl (queries : List String)
    (outcome : Except String (String → Except String (List RawResult))) : Resp :=
  match outcome with
  | .ok backend =>
    let all_results := (queries.take 10).foldl (fun m q =>
      setAssoc m q (match backend q with
        | .ok rs => .arr (rs.map (fun r =>
            JValue.obj [("title", r.getD "title" (.str "")),
              ("url", r.getD "href" (.str "")),
              ("snippet", r.getD "body" (.str ""))]))
        | .error e => .obj [("error", .str e)])) []
    ⟨.obj [("status", .str "success"), ("total_queries", .num queries.length),
           ("results", .obj all_results)], some 2⟩
  | .error e =>
    ⟨.obj [("status", .str "error"),
           ("message", .str ("Batch search failed: " ++ e))], some 2⟩

/-- `clear_cache` (lines 1415-1427): clears the global cache and returns a
fixed confirmation envelope. -/
def clearCacheImpl (c : SimpleCache V) : SimpleCache V × Resp :=
  (c.clear,
   ⟨.obj [("status", .str "success"),
          ("message", .str "Cache cleared successfully")], some 2⟩)

/-- The envelope property of claim C3: the serialized object carries a
`status` field valued `"success"`, `"error"` or `"not_found"`. -/
def GoodStatus (r : Resp) : Prop :=
  ∃ s, r.val.lookupStr "status" = some s ∧
    (s = "success" ∨ s = "error" ∨ s = "not_found")

/-- Claim C3 (amended): every tool operation, on every input and outcome
branch, returns a JSON object whose `status` field is `"success"`,
`"error"` or `"not_found"`; every response is serialized with `indent=2`
EXCEPT the empty-result responses of the five search tools (web, news,
images, videos, maps), which are serialized without indentation; the
cache-hit branches of the markdown, PDF and transcript tools replay a
previously produced response verbatim. -/
theorem c3_envelopes :
    (∀ (q : String) (oc : Except String (List RawResult)),
      GoodStatus (searchWebImpl q oc) ∧
      (searchWebImpl q oc).indent =
        (match oc with | .ok [] => none | _ => some 2)) ∧
    (∀ (q : String) (oc : Except String (List RawResult)),
      GoodStatus (searchNewsImpl q oc) ∧
      (searchNewsImpl q oc).indent =
        (match oc with | .ok [] => none | _ => some 2)) ∧
    (∀ (q : String) (oc : Except String (List RawResult)),
      GoodStatus (searchImagesImpl q oc) ∧
      (searchImagesImpl q oc).indent =
        (match oc with | .ok [] => none | _ => some 2)) ∧
    (∀ (q : String) (oc : Except String (List RawResult)),
      GoodStatus (searchYoutubeImpl q oc) ∧
      (searchYoutubeImpl q oc).indent =
        (match oc with | .ok [] => none | _ => some 2)) ∧
    (∀ (q : String) (oc : Except String (List RawResult)),
      GoodStatus (searchMapsImpl q oc) ∧
      (searchMapsImpl q oc).indent =
        (match oc with | .ok [] => none | _ => some 2)) ∧
    (∀ (url : String) (ml : Nat) (oc : Except FetchErr ParsedDoc),
      GoodStatus (fetchWebpageImpl url ml oc) ∧
      (fetchWebpageImpl url ml oc).indent = some 2) ∧
    (∀ (url : String) (ml : Nat) (oc : Except String JsDoc),
      GoodStatus (fetchWebpageJsImpl url ml oc) ∧
      (fetchWebpageJsImpl url ml oc).indent = some 2) ∧
    (∀ (abspath netloc : String → String) (url : String) (fp : Bool)
        (op : Option String) (oc : Except String String),
      GoodStatus (takeScreenshotImpl abspath netloc url fp op oc) ∧
      (takeScreenshotImpl abspath netloc url fp op oc).indent = some 2) ∧
    (∀ (urljoin : String → String → String) (netloc : String → String)
        (url : String) (sdo : Bool) (oc : Except String (List (String × String))),
      GoodStatus (extractLinksImpl urljoin netloc url sdo oc) ∧
      (extractLinksImpl urljoin netloc url sdo oc).indent = some 2) ∧
    (∀ (q : String) (n : Nat) (oc : WikiOutcome),
      GoodStatus (searchWikipediaImpl q n oc) ∧
      (searchWikipediaImpl q n oc).indent = some 2) ∧
    (∀ (url : String) (oc : Except String MetaDoc),
      GoodStatus (getPageMetadataImpl url oc) ∧
      (getPageMetadataImpl url oc).indent = some 2) ∧
    (∀ (loc : String) (oc : Except String WeatherDoc),
      GoodStatus (getWeatherImpl loc oc) ∧
      (getWeatherImpl loc oc).indent = some 2) ∧
    (∀ (text tl : String) (oc : TranslateOutcome),
      GoodStatus (translateTextImpl text tl oc) ∧
      (translateTextImpl text tl oc).indent = some 2) ∧
    (∀ (url : String) (ml : Nat) (oc : Except String MdDoc),
      GoodStatus (fetchAsMarkdownImpl url ml none oc) ∧
      (fetchAsMarkdownImpl url ml none oc).indent = some 2) ∧
    (∀ (url : String) (ml : Nat) (r : Resp) (oc : Except String MdDoc),
      fetchAsMarkdownImpl url ml (some r) oc = r) ∧
    (∀ (vu lang : String) (vid : Option String) (oc : TranscriptOutcome),
      GoodStatus (getYoutubeTranscriptImpl vu lang vid none oc) ∧
      (getYoutubeTranscriptImpl vu lang vid none oc).indent = some 2) ∧
    (∀ (vu lang vid : String) (r : Resp) (entries : List TranscriptEntry),
      getYoutubeTranscriptImpl vu lang (some vid) (some r) (.ok entries) = r) ∧
    (∀ (vu lang vid : String) (r : Resp) (m : String),
      getYoutubeTranscriptImpl vu lang (some vid) (some r) (.fetchErr m) = r) ∧
    (∀ (url : String) (mp : Nat) (oc : PdfOutcome),
      GoodStatus (readPdfUrlImpl url mp none oc) ∧
      (readPdfUrlImpl url mp none oc).indent = some 2) ∧
    (∀ (url : String) (mp : Nat) (r : Resp) (oc : PdfOutcome),
      readPdfUrlImpl url mp (some r) oc = r) ∧
    (∀ (qs : List String) (oc : Except String (String → Except String (List RawResult))),
      GoodStatus (batchSearchImpl qs oc) ∧ (batchSearchImpl qs oc).indent = some 2) ∧
    (∀ (urljoin : String → String → String) (netloc : String → String)
        (fetch : String → Option FetchedPage) (url : String) (mp : Nat) (sd : Bool),
      GoodStatus (crawlWebsiteImpl urljoin netloc fetch url mp sd) ∧
      (crawlWebsiteImpl urljoin netloc fetch url mp sd).indent = some 2) ∧
    (∀ (url msg : String),
      GoodStatus (crawlWebsiteErrResp url msg) ∧
      (crawlWebsiteErrResp url msg).indent = some 2) ∧
    (∀ (c : SimpleCache String),
      GoodStatus (clearCacheImpl c).2 ∧ (clearCacheImpl c).2.indent = some 2) := by
  refine ⟨?_, ?_, ?_, ?_, ?_, ?_, ?_, ?_, ?_, ?_, ?_, ?_, ?_, ?_, ?_, ?_, ?_, ?_,
    ?_, ?_, ?_, ?_, ?_, ?_⟩
  · intro q oc
    rcases oc with e | rs
    · exact ⟨⟨"error", rfl, Or.inr (Or.inl rfl)⟩, rfl⟩
    · rcases rs with _ | ⟨a, l⟩
      · exact ⟨⟨"success", rfl, Or.inl rfl⟩, rfl⟩
      · exact ⟨⟨"success", rfl, Or.inl rfl⟩, rfl⟩
  · intro q oc
    rcases oc with e | rs
    · exact ⟨⟨"error", rfl, Or.inr (Or.inl rfl)⟩, rfl⟩
    · rcases rs with _ | ⟨a, l⟩
      · exact ⟨⟨"success", rfl, Or.inl rfl⟩, rfl⟩
      · exact ⟨⟨"success", rfl, Or.inl rfl⟩, rfl⟩
  · intro q oc
    rcases oc with e | rs
    · exact ⟨⟨"error", rfl, Or.inr (Or.inl rfl)⟩, rfl⟩
    · rcases rs with _ | ⟨a, l⟩
      · exact ⟨⟨"success", rfl, Or.inl rfl⟩, rfl⟩
      · exact ⟨⟨"success", rfl, Or.inl rfl⟩, rfl⟩
  · intro q oc
    rcases oc with e | rs
    · exact ⟨⟨"error", rfl, Or.inr (Or.inl rfl)⟩, rfl⟩
    · rcases rs with _ | ⟨a, l⟩
      · exact ⟨⟨"success", rfl, Or.inl rfl⟩, rfl⟩
      · exact ⟨⟨"success", rfl, Or.inl rfl⟩, rfl⟩
  · intro q oc
    rcases oc with e | rs
    · exact ⟨⟨"error", rfl, Or.inr (Or.inl rfl)⟩, rfl⟩
    · rcases rs with _ | ⟨a, l⟩
      · exact ⟨⟨"success", rfl, Or.inl rfl⟩, rfl⟩
      · exact ⟨⟨"success", rfl, Or.inl rfl⟩, rfl⟩
  · intro url ml oc
    rcases oc with err | d
    · rcases err with ⟨code, reason⟩ | msg
      · exact ⟨⟨"error", rfl, Or.inr (Or.inl rfl)⟩, rfl⟩
      · exact ⟨⟨"error", rfl, Or.inr (Or.inl rfl)⟩, rfl⟩
    · exact ⟨⟨"success", rfl, Or.inl rfl⟩, rfl⟩
  · intro url ml oc
    rcases oc with e | d
    · exact ⟨⟨"error", rfl, Or.inr (Or.inl rfl)⟩, rfl⟩
    · exact ⟨⟨"success", rfl, Or.inl rfl⟩, rfl⟩
  · intro abspath netloc url fp op oc
    rcases oc with e | b64
    · exact ⟨⟨"error", rfl, Or.inr (Or.inl rfl)⟩, rfl⟩
    · exact ⟨⟨"success", rfl, Or.inl rfl⟩, rfl⟩
  · intro urljoin netloc url sdo oc
    rcases oc with e | anchors
    · exact ⟨⟨"error", rfl, Or.inr (Or.inl rfl)⟩, rfl⟩
    · exact ⟨⟨"success", rfl, Or.inl rfl⟩, rfl⟩
  · intro q n oc
    rcases oc with suggestions | ⟨t, d, e, p, th⟩ | e
    · rcases suggestions with _ | ⟨a, l⟩
      · exact ⟨⟨"not_found", rfl, Or.inr (Or.inr rfl)⟩, rfl⟩
      · exact ⟨⟨"not_found", rfl, Or.inr (Or.inr rfl)⟩, rfl⟩
    · exact ⟨⟨"success", rfl, Or.inl rfl⟩, rfl⟩
    · exact ⟨⟨"error", rfl, Or.inr (Or.inl rfl)⟩, rfl⟩
  · intro url oc
    rcases oc with e | d
    · exact ⟨⟨"error", rfl, Or.inr (Or.inl rfl)⟩, rfl⟩
    · exact ⟨⟨"success", rfl, Or.inl rfl⟩, rfl⟩
  · intro loc oc
    rcases oc with e | d
    · exact ⟨⟨"error", rfl, Or.inr (Or.inl rfl)⟩, rfl⟩
    · exact ⟨⟨"success", rfl, Or.inl rfl⟩, rfl⟩
  · intro text tl oc
    rcases oc with ⟨tr, sl⟩ | details | e
    · exact ⟨⟨"success", rfl, Or.inl rfl⟩, rfl⟩
    · exact ⟨⟨"error", rfl, Or.inr (Or.inl rfl)⟩, rfl⟩
    · exact ⟨⟨"error", rfl, Or.inr (Or.inl rfl)⟩, rfl⟩
  · intro url ml oc
    rcases oc with e | d
    · exact ⟨⟨"error", rfl, Or.inr (Or.inl rfl)⟩, rfl⟩
    · exact ⟨⟨"success", rfl, Or.inl rfl⟩, rfl⟩
  · intro url ml r oc
    rfl
  · intro vu lang vid oc
    rcases oc with e | entries | e
    · exact ⟨⟨"error", rfl, Or.inr (Or.inl rfl)⟩, rfl⟩
    · rcases vid with _ | vid
      · exact ⟨⟨"error", rfl, Or.inr (Or.inl rfl)⟩, rfl⟩
      · exact ⟨⟨"success", rfl, Or.inl rfl⟩, rfl⟩
    · rcases vid with _ | vid
      · exact ⟨⟨"error", rfl, Or.inr (Or.inl rfl)⟩, rfl⟩
      · exact ⟨⟨"error", rfl, Or.inr (Or.inl rfl)⟩, rfl⟩
  · intro vu lang vid r entries
    rfl
  · intro vu lang vid r m
    rfl
  · intro url mp oc
    rcases oc with e | ⟨ct, pdf⟩
    · exact ⟨⟨"error", rfl, Or.inr (Or.inl rfl)⟩, rfl⟩
    · unfold readPdfUrlImpl
      dsimp only
      split
      · exact ⟨⟨"error", rfl, Or.inr (Or.inl rfl)⟩, rfl⟩
      · exact ⟨⟨"success", rfl, Or.inl rfl⟩, rfl⟩
  · intro url mp r oc
    rfl
  · intro qs oc
    rcases oc with e | backend
    · exact ⟨⟨"error", rfl, Or.inr (Or.inl rfl)⟩, rfl⟩
    · exact ⟨⟨"success", rfl, Or.inl rfl⟩, rfl⟩
  · intro urljoin netloc fetch url mp sd
    exact ⟨⟨"success", rfl, Or.inl rfl⟩, rfl⟩
  · intro url msg
    exact ⟨⟨"error", rfl, Or.inr (Or.inl rfl)⟩, rfl⟩
  · intro c
    exact ⟨⟨"success", rfl, Or.inl rfl⟩, rfl⟩

/-- Counterexample to C3 as stated: the empty-result branch of
`_search_web_impl` (line 80) calls `json.dumps` without `indent=2`, so its
response is not 2-space-indented. -/
theorem c3_counterexample :
    (searchWebImpl "test" (Except.ok ([] : List RawResult))).indent = none ∧
    (searchWebImpl "test" (Except.ok ([] : List RawResult))).indent ≠ some 2 :=
  ⟨rfl, by decide⟩

/-- Witness for C10: a `data.json` link discovered on a same-domain page is
discarded — it never enters the (initially empty) frontier extension. -/
theorem c10_skip_substring_filter_witness :
    "https://example.com/data.json" ∉
      processLinks (mkCrawlCtx urljoinC netlocC fetchNoneC "https://example.com/" 10 true)
        ["https://example.com/"] "https://example.com/" ["data.json"] [] := by
  intro hmem
  have h := c10_skip_substring_filter.2.1 _ _ _ _ _ _ (by decide) hmem
  simp at h

end SearchServer
